import Mathlib

/-!
Shallow embedding of the conmon Rust monitor (src/lib.rs, src/config.rs,
src/container_logging.rs) and proofs about the frozen claims.

Conventions of the embedding:
* pure Rust functions become Lean functions on `String`/`List`/`Int`/`Nat`;
* fallible Rust code returning `anyhow::Result<T>` becomes `Except String T`,
  keeping the context message that the source attaches at the failing call;
* interactions with the operating system (environment lookup, file opening,
  `fcntl`, `fork`, ...) are modelled through an explicit `World` record whose
  boolean fields say which OS calls succeed; the documented Linux semantics of
  every modelled syscall is recorded in a doc comment at its definition;
* `Conmon::run` is embedded as a function from a configuration and a world to
  the ordered list of lifecycle events it performs plus its final outcome.
-/

namespace Conmon

/-! ## Container logging (src/container_logging.rs) -/

/-- Journal fields of the `journald` driver (struct `ContainerFields`).
The Rust derive gives `Default` with empty strings and `None` options. -/
structure ContainerFields where
  id : String := ""
  id_full : String := ""
  tag : Option String := Option.none
  name : Option String := Option.none
deriving DecidableEq

/-- The logging drivers (enum `Driver`), kebab-case keywords via strum. -/
inductive Driver where
  | k8sFile (path : String)
  | journald (fields : ContainerFields)
  | off
  | null
  | none
deriving DecidableEq

/-- `Driver::from_str` as derived by strum `EnumString` with
`serialize_all = "kebab-case"`: data-carrying variants are filled with
`Default::default()`; an unknown keyword is a `VariantNotFound` error. -/
def driverFromStr (s : String) : Except String Driver :=
  if s = "k8s-file" then Except.ok (Driver.k8sFile "")
  else if s = "journald" then Except.ok (Driver.journald {})
  else if s = "off" then Except.ok Driver.off
  else if s = "null" then Except.ok Driver.null
  else if s = "none" then Except.ok Driver.none
  else Except.error "convert log driver"

/-- Rust `str::split(sep)` on a character separator: every occurrence of the
separator starts a new (possibly empty) segment; the empty string yields one
empty segment. -/
def splitOnChar (sep : Char) : List Char → List (List Char)
  | [] => [[]]
  | c :: cs =>
    if c = sep then [] :: splitOnChar sep cs
    else
      match splitOnChar sep cs with
      | [] => [[c]]
      | h :: t => (c :: h) :: t

/-- `ContainerLogging::parse_log_path`: split the string on every colon,
interpret segment 0 as a driver keyword, and for the `k8s-file` keyword use
segment 1 as the path (which must be non-empty); without a colon an unknown
keyword falls back to a `k8s-file` path. -/
def parse_log_path (log_path : String) : Except String Driver :=
  let splitted : List String := (splitOnChar ':' log_path.data).map String.mk
  match splitted.head? with
  | Option.none => Except.error "no driver provided"
  | Option.some driver_or_path =>
    let maybe_driver := driverFromStr driver_or_path
    if 1 < splitted.length then
      match maybe_driver with
      | Except.error e => Except.error e
      | Except.ok (Driver.k8sFile _) =>
        match splitted.get? 1 with
        | Option.none => Except.error "no path provided"
        | Option.some path =>
          if path = "" then Except.error "logging path cannot be empty"
          else Except.ok (Driver.k8sFile path)
      | Except.ok k => Except.ok k
    else
      match maybe_driver with
      | Except.ok d => Except.ok d
      | Except.error _ => Except.ok (Driver.k8sFile driver_or_path)

/-- `ContainerLogging::truncate`: `s.char_indices().nth(max_chars)` is `Some`
exactly when the string has more than `max_chars` characters, in which case the
slice up to that character boundary (the first `max_chars` characters) is
returned; otherwise the string is returned unchanged. -/
def truncate (s : String) (max_chars : Nat) : String :=
  if max_chars < s.length then String.mk (s.data.take max_chars) else s

/-- `struct ContainerLogging`: the resolved drivers plus the opened log files
(an open `File` is modelled by the path it was opened at). -/
structure ContainerLogging where
  drivers : List Driver
  files : List String
deriving DecidableEq

/-- Loop body of `ContainerLogging::new` over the log paths, accumulating
drivers and files; `fs path` says whether opening `path` in
append/create/write mode succeeds. -/
def newAux (fs : String → Bool) (cuuid name tag : Option String) :
    List String → List Driver → List String → Except String ContainerLogging
  | [], drivers, files => Except.ok { drivers := drivers, files := files }
  | log_path :: rest, drivers, files =>
    match parse_log_path log_path with
    | Except.error e => Except.error e
    | Except.ok d =>
      match d with
      | Driver.off => newAux fs cuuid name tag rest drivers files
      | Driver.null => newAux fs cuuid name tag rest drivers files
      | Driver.none => newAux fs cuuid name tag rest drivers files
      | Driver.k8sFile path =>
        if fs path then
          newAux fs cuuid name tag rest (drivers ++ [Driver.k8sFile path]) (files ++ [path])
        else Except.error "open log file path"
      | Driver.journald _ =>
        match cuuid with
        | Option.none => Except.error "no cuuid provided"
        | Option.some cu =>
          -- `cuuid.len()` in Rust is the UTF-8 byte length of the identifier
          if cu.utf8ByteSize < 12 then
            Except.error "container ID must be longer than 12 characters"
          else
            let fields : ContainerFields :=
              { id := "CONTAINER_ID=" ++ truncate cu 12
                id_full := "CONTAINER_ID_FULL=" ++ cu
                tag := tag.map (fun x => "CONTAINER_TAG=" ++ x)
                name := name.map (fun x => "CONTAINER_NAME=" ++ x) }
            newAux fs cuuid name tag rest (drivers ++ [Driver.journald fields]) files

/-- `ContainerLogging::new(log_paths, cuuid, name, tag)`; the extra `fs`
argument models which paths can be opened append/create/write. -/
def ContainerLogging.new (log_paths : List String) (cuuid name tag : Option String)
    (fs : String → Bool) : Except String ContainerLogging :=
  newAux fs cuuid name tag log_paths [] []

/-! ## Configuration (src/config.rs) -/

/-- The fields of `struct Config` that `Config::validate` and `Conmon::run`
read or write; the remaining clap fields are never consulted by the embedded
code paths.  Paths are modelled as strings. -/
structure Config where
  api_version : Nat := 0
  bundle : Option String := Option.none
  cid : String := ""
  cuuid : Option String := Option.none
  exec : Bool := false
  exec_attach : Bool := false
  container_pidfile : Option String := Option.none
  log_path : List String := []
  log_tag : Option String := Option.none
  name : Option String := Option.none
  pidfile : Option String := Option.none
  runtime : String := ""
  sdnotify_socket : Option String := Option.none
  stdin : Bool := false
  sync : Bool := false
  terminal : Bool := false
deriving DecidableEq

/-! ## The operating-system model -/

/-- The outcome of each operating-system interaction `Conmon::run` performs.
`env` is the process environment; `validFd` says which descriptor numbers are
open (so `fcntl` succeeds on them); `openReadOk`/`openWriteOk`/`appendOpenOk`
say which paths can be opened in the respective mode; the boolean flags give
the success of the corresponding syscall; `childPid` is the pid returned to
the parent by `fork`; `startPipeHasData` says whether the launcher already
wrote to the start pipe. -/
structure World where
  env : String → Option String
  validFd : Int → Bool
  closeOk : Int → Bool
  openReadOk : String → Bool
  openWriteOk : String → Bool
  appendOpenOk : String → Bool
  pathExists : String → Bool
  currentDir : Option String
  initLoggingOk : Bool
  signalOk : Bool
  forkOk : Bool
  childPid : Nat
  pidfileWriteOk : Bool
  dup2Ok : Bool
  setsidOk : Bool
  prctlOk : Bool
  stdinPipeOk : Bool
  stdinPipeFds : Int × Int
  nonblockOk : Bool
  stdoutPipeOk : Bool
  stdoutPipeFds : Int × Int
  startPipeHasData : Bool

/-- A file handle as produced by `std::fs::File::open` /
`OpenOptions::open`: the path plus the access mode it was opened with. -/
structure FileHandle where
  path : String
  readable : Bool
  writable : Bool
deriving DecidableEq

/-- `File::open(path)`: per the Rust standard library this opens the file in
read-only mode. -/
def fileOpenRead (w : World) (path : String) : Except String FileHandle :=
  if w.openReadOk path then
    Except.ok { path := path, readable := true, writable := false }
  else Except.error ("open " ++ path ++ " for reading")

/-- `OpenOptions::new().write(true).open(path)`: a write-only handle. -/
def fileOpenWrite (w : World) (path : String) : Except String FileHandle :=
  if w.openWriteOk path then
    Except.ok { path := path, readable := false, writable := true }
  else Except.error ("open " ++ path ++ " for writing")

/-- `Write::write_all` on a file handle: `write(2)` on a descriptor opened
read-only fails with `EBADF`, so writing succeeds only on a writable handle. -/
def writeAll (h : FileHandle) (contents : String) : Except String Unit :=
  if h.writable then Except.ok () else Except.error ("Bad file descriptor: " ++ contents)

/-- `Conmon::set_oom(score)`: opens `/proc/self/oom_score_adj` with
`File::open` (read-only) and then calls `write_all` on the handle. -/
def set_oom (w : World) (score : String) : Except String Unit :=
  match fileOpenRead w "/proc/self/oom_score_adj" with
  | Except.error e => Except.error ("open oom score file: " ++ e)
  | Except.ok f =>
    match writeAll f score with
    | Except.error e => Except.error ("write oom score: " ++ e)
    | Except.ok u => Except.ok u

/-- Digit run of Rust `str::parse::<i32>`: at least one ASCII digit, no other
characters. -/
def parseDigits : List Char → Option Nat
  | [] => Option.none
  | cs =>
    cs.foldl
      (fun acc c =>
        match acc with
        | Option.none => Option.none
        | Option.some n =>
          if c.isDigit then Option.some (n * 10 + (c.toNat - 48)) else Option.none)
      (Option.some 0)

/-- Rust `str::parse::<i32>`: an optional `+` or `-` sign followed by at least
one ASCII digit, rejecting values outside the signed 32-bit range. -/
def parseI32 (s : String) : Option Int :=
  let signAndDigits : Int × List Char :=
    match s.data with
    | '+' :: rest => (1, rest)
    | '-' :: rest => (-1, rest)
    | cs => (1, cs)
  match parseDigits signAndDigits.2 with
  | Option.none => Option.none
  | Option.some n =>
    let v : Int := signAndDigits.1 * (n : Int)
    if -(2 ^ 31) ≤ v ∧ v ≤ 2 ^ 31 - 1 then Option.some v else Option.none

/-- `nix::fcntl::fcntl(fd, F_SETFD(FD_CLOEXEC))`: nix returns the raw return
value of `fcntl(2)`, which for a successful `F_SETFD` on Linux is `0`; a
negative or not-open descriptor number fails with `EBADF`. -/
def fcntl_setfd_cloexec (w : World) (fd : Int) : Except String Int :=
  if 0 ≤ fd ∧ w.validFd fd = true then Except.ok 0 else Except.error "make CLOEXEC"

/-- `Conmon::pipe_from_env(key)`: `env::var(key)?` propagates the lookup
error when the variable is unset; otherwise the value is parsed as an `i32`
(parse failure gets the context `parse env key`) and the result of the
`fcntl` close-on-exec call is returned. -/
def pipe_from_env (w : World) (key : String) : Except String Int :=
  match w.env key with
  | Option.none => Except.error "environment variable not found"
  | Option.some v =>
    match parseI32 v with
    | Option.none => Except.error "parse env key"
    | Option.some n => fcntl_setfd_cloexec w n

/-- `nix::unistd::read(fd, buf)` on the start pipe: the requested length is
the length of the supplied buffer.  Per `read(2)` on Linux a request of zero
bytes returns `0` immediately without blocking; a nonzero request returns
data when available and blocks (modelled as `Option.none`) when the pipe is
empty and the write end is still open. -/
def readPipe (count : Nat) (hasData : Bool) : Option Nat :=
  if count = 0 then Option.some 0
  else if hasData then Option.some count
  else Option.none

/-- `Config::validate`: rejects legacy-API attach, a missing container UUID
(except for a legacy exec session), and a nonexistent runtime path; then
defaults `bundle` (outside exec) and `container_pidfile` from the current
directory. -/
def validate (c : Config) (w : World) : Except String Config :=
  if c.api_version < 1 ∧ c.exec_attach = true then
    Except.error "attach can only be specified for a non-legacy exec session"
  else if c.cuuid = Option.none ∧ (c.exec = false ∨ 1 ≤ c.api_version) then
    Except.error "container UUID not provided, use --cuuid"
  else if w.pathExists c.runtime = false then
    Except.error "runtime path does not exist"
  else
    match w.currentDir with
    | Option.none => Except.error "get current dir"
    | Option.some cwd =>
      let c1 :=
        if c.bundle = Option.none ∧ c.exec = false then
          { c with bundle := Option.some cwd }
        else c
      let c2 :=
        if c1.container_pidfile = Option.none then
          { c1 with container_pidfile := Option.some (cwd ++ "/pidfile-" ++ c1.cid) }
        else c1
      Except.ok c2

/-! ## The lifecycle of `Conmon::run` (src/lib.rs) -/

/-- Observable lifecycle events of `Conmon::run`, in source order:
the `ContainerLogging::new` call, the OOM-score warning branch, signal
installation, the start-pipe read and close, the parent pidfile write, the
fork (as seen by the child), the `atexit` registration, the three `dup2`
redirections, `setsid`, the subreaper `prctl`, and the `pipe2` descriptor
pairs (no stderr pair is ever created by the source; its event constructor
exists so that its absence is expressible). -/
inductive Event where
  | loggingConfigured
  | oomWarning
  | signalsArmed
  | startPipeRead (fd : Int) (bytes : Nat)
  | startPipeClosed (fd : Int)
  | pidfileWritten (path : String) (contents : String)
  | forked (child : Nat)
  | atexitRegistered
  | stdioRedirected
  | sessionCreated
  | subreaperFlagged
  | stdinPairCreated (mainfd workerfd : Int)
  | nonblockWarning
  | stdoutPairCreated (mainfd workerfd : Int)
  | stderrPairCreated (mainfd workerfd : Int)
deriving DecidableEq

/-- The constructor head of an event, without its data. -/
inductive Kind where
  | loggingConfigured
  | oomWarning
  | signalsArmed
  | startPipeRead
  | startPipeClosed
  | pidfileWritten
  | forked
  | atexitRegistered
  | stdioRedirected
  | sessionCreated
  | subreaperFlagged
  | stdinPairCreated
  | nonblockWarning
  | stdoutPairCreated
  | stderrPairCreated
deriving DecidableEq

/-- Forget the data of an event. -/
def Event.kind : Event → Kind
  | Event.loggingConfigured => Kind.loggingConfigured
  | Event.oomWarning => Kind.oomWarning
  | Event.signalsArmed => Kind.signalsArmed
  | Event.startPipeRead _ _ => Kind.startPipeRead
  | Event.startPipeClosed _ => Kind.startPipeClosed
  | Event.pidfileWritten _ _ => Kind.pidfileWritten
  | Event.forked _ => Kind.forked
  | Event.atexitRegistered => Kind.atexitRegistered
  | Event.stdioRedirected => Kind.stdioRedirected
  | Event.sessionCreated => Kind.sessionCreated
  | Event.subreaperFlagged => Kind.subreaperFlagged
  | Event.stdinPairCreated _ _ => Kind.stdinPairCreated
  | Event.nonblockWarning => Kind.nonblockWarning
  | Event.stdoutPairCreated _ _ => Kind.stdoutPairCreated
  | Event.stderrPairCreated _ _ => Kind.stderrPairCreated

/-- How an invocation of `Conmon::run` ends: returning `Ok(())`, returning an
error, calling `exit(code)`, hitting an `unimplemented!` stub, or blocking
forever. -/
inductive Outcome where
  | ok
  | error (msg : String)
  | exited (code : Nat)
  | notSupported (msg : String)
  | blocked
deriving DecidableEq

/-- Prepend already-performed events to the result of the remaining steps. -/
def withEvents (pre : List Event) (r : List Event × Outcome) : List Event × Outcome :=
  (pre ++ r.1, r.2)

/-- lib.rs lines 150-157: the stdout `pipe2(O_CLOEXEC)` pair,
`mainfd_stdout` from the read end and `workerfd_stdout` from the write end. -/
def runStdoutPair (w : World) : List Event × Outcome :=
  if w.stdoutPipeOk = false then ([], Outcome.error "pipe2 stdout")
  else ([Event.stdoutPairCreated w.stdoutPipeFds.1 w.stdoutPipeFds.2], Outcome.ok)

/-- lib.rs lines 119-159: terminal mode hits the `unimplemented!` stub;
otherwise the optional stdin pair (with a non-fatal non-blocking warning) and
the stdout pair are created, and `run` returns `Ok(())`.  No stderr pair is
created anywhere in the source. -/
def runIoChannels (c : Config) (w : World) : List Event × Outcome :=
  if c.terminal = true then
    ([], Outcome.notSupported "console socket setup is not implemented yet")
  else if c.stdin = true then
    if w.stdinPipeOk = false then ([], Outcome.error "pipe2 stdin")
    else
      withEvents
        (Event.stdinPairCreated w.stdinPipeFds.1 w.stdinPipeFds.2 ::
          (if w.nonblockOk = false then [Event.nonblockWarning] else []))
        (runStdoutPair w)
  else runStdoutPair w

/-- lib.rs lines 101-117: open `/dev/null` for reading and writing, `dup2`
the three standard streams onto it, `setsid`, then the subreaper `prctl`
(whose failure is the `bail!` "failed to set as subreaper"). -/
def runStdioAndSession (c : Config) (w : World) : List Event × Outcome :=
  match fileOpenRead w "/dev/null" with
  | Except.error e => ([], Outcome.error e)
  | Except.ok _ =>
    match fileOpenWrite w "/dev/null" with
    | Except.error e => ([], Outcome.error e)
    | Except.ok _ =>
      if w.dup2Ok = false then ([], Outcome.error "dup2")
      else if w.setsidOk = false then ([Event.stdioRedirected], Outcome.error "setsid")
      else if w.prctlOk = false then
        ([Event.stdioRedirected, Event.sessionCreated],
          Outcome.error "failed to set as subreaper")
      else
        withEvents [Event.stdioRedirected, Event.sessionCreated, Event.subreaperFlagged]
          (runIoChannels c w)

/-- lib.rs lines 86-99: register the `atexit` reaper, hit the sd-notify
`unimplemented!` stub when a socket is configured, then resolve the sync pipe
and (for exec-attach sessions) the attach pipe. -/
def runAfterFork (c : Config) (w : World) : List Event × Outcome :=
  withEvents [Event.atexitRegistered]
    (match c.sdnotify_socket with
    | Option.some _ => ([], Outcome.notSupported "sd notify sockets are not implemented yet")
    | Option.none =>
      match pipe_from_env w "_OCI_SYNCPIPE" with
      | Except.error _ => ([], Outcome.error "get sync pipe")
      | Except.ok _ =>
        if c.exec_attach = true then
          match pipe_from_env w "_OCI_ATTACHPIPE" with
          | Except.error _ => ([], Outcome.error "get attach pipe")
          | Except.ok _ => runStdioAndSession c w
        else runStdioAndSession c w)

/-- lib.rs lines 75-84: when the sync flag is unset, fork; the parent writes
the child's decimal pid to the configured pidfile and calls `exit(0)`, the
child continues.  `followChild` selects which of the two processes the trace
follows.  With the sync flag set there is no fork and the single process
continues. -/
def runForkStage (c : Config) (w : World) (followChild : Bool) : List Event × Outcome :=
  if c.sync = false then
    if w.forkOk = false then ([], Outcome.error "fork failed")
    else if followChild = false then
      match c.pidfile with
      | Option.some path =>
        if w.pidfileWriteOk = true then
          ([Event.pidfileWritten path (Nat.repr w.childPid)], Outcome.exited 0)
        else ([], Outcome.error "write conmon pidfile")
      | Option.none => ([], Outcome.exited 0)
    else withEvents [Event.forked w.childPid] (runAfterFork c w)
  else runAfterFork c w

/-- lib.rs lines 62-73: resolve the start pipe from `_OCI_STARTPIPE`;
when the returned number is strictly positive, read from it with the
zero-capacity buffer `vec![]` and, outside exec-attach sessions, close it. -/
def runStartPipe (c : Config) (w : World) (followChild : Bool) : List Event × Outcome :=
  match pipe_from_env w "_OCI_STARTPIPE" with
  | Except.error _ => ([], Outcome.error "get start pipe")
  | Except.ok start_pipe_fd =>
    if 0 < start_pipe_fd then
      match readPipe 0 w.startPipeHasData with
      | Option.none => ([], Outcome.blocked)
      | Option.some n =>
        withEvents [Event.startPipeRead start_pipe_fd n]
          (if c.exec_attach = false then
            if w.closeOk start_pipe_fd = true then
              withEvents [Event.startPipeClosed start_pipe_fd] (runForkStage c w followChild)
            else ([], Outcome.error "close start pipe")
          else runForkStage c w followChild)
    else runForkStage c w followChild

/-- lib.rs lines 50-61: the `ContainerLogging::new` call (whose `Result` is
bound to `_container_logging` and never propagated), the best-effort
`set_oom("-1000")` whose failure only logs a warning, and the signal-handler
installation. -/
def runLogging (c : Config) (w : World) (followChild : Bool) : List Event × Outcome :=
  let _container_logging :=
    ContainerLogging.new c.log_path c.cuuid c.name c.log_tag w.appendOpenOk
  let oomEvs :=
    match set_oom w "-1000" with
    | Except.error _ => [Event.oomWarning]
    | Except.ok _ => []
  withEvents (Event.loggingConfigured :: oomEvs)
    (if w.signalOk = false then ([], Outcome.error "set signal handler")
    else withEvents [Event.signalsArmed] (runStartPipe c w followChild))

/-- `Conmon::run` (lib.rs lines 43-160): logger init, config validation, and
the lifecycle stages above, producing the ordered event trace and the final
outcome of the followed process. -/
def run (c : Config) (w : World) (followChild : Bool) : List Event × Outcome :=
  if w.initLoggingOk = false then ([], Outcome.error "init logging")
  else
    match validate c w with
    | Except.error e => ([], Outcome.error e)
    | Except.ok c2 => runLogging c2 w followChild

/-- The event-kind trace of an invocation. -/
def runKinds (c : Config) (w : World) (followChild : Bool) : List Kind :=
  (run c w followChild).1.map Event.kind

/-! ## Concrete worlds and configurations used by the theorems -/

/-- An environment supplying parseable start- and sync-pipe descriptors. -/
def okEnv : String → Option String := fun k =>
  if k = "_OCI_STARTPIPE" then Option.some "4"
  else if k = "_OCI_SYNCPIPE" then Option.some "5"
  else Option.none

/-- A world in which every modelled OS interaction succeeds. -/
def okWorld : World where
  env := okEnv
  validFd := fun _ => true
  closeOk := fun _ => true
  openReadOk := fun _ => true
  openWriteOk := fun _ => true
  appendOpenOk := fun _ => true
  pathExists := fun _ => true
  currentDir := Option.some "/cwd"
  initLoggingOk := true
  signalOk := true
  forkOk := true
  childPid := 42
  pidfileWriteOk := true
  dup2Ok := true
  setsidOk := true
  prctlOk := true
  stdinPipeOk := true
  stdinPipeFds := (10, 11)
  nonblockOk := true
  stdoutPipeOk := true
  stdoutPipeFds := (12, 13)
  startPipeHasData := false

/-- A plain configuration in keep-as-child (sync) mode. -/
def okConfig : Config where
  cid := "cid"
  cuuid := Option.some "0123456789abcdef"
  log_path := ["/log/path"]
  runtime := "/bin/runc"
  sync := true

/-- The five worker/main descriptor variables of lib.rs lines 119-124,
all initialized to `-1`; the source declares no `mainfd_stderr` at all. -/
structure IoFds where
  workerfd_stdin : Int := -1
  workerfd_stdout : Int := -1
  workerfd_stderr : Int := -1
  mainfd_stdin : Int := -1
  mainfd_stdout : Int := -1
deriving DecidableEq

/-- The values of the descriptor variables after the I/O-channel stage
(lib.rs lines 119-157), `Option.none` when the stage panics (terminal mode)
or errors (a `pipe2` failure): only the stdin pair (when configured) and the
stdout pair are ever assigned; `workerfd_stderr` is never reassigned. -/
def ioFdsAfter (c : Config) (w : World) : Option IoFds :=
  if c.terminal = true then Option.none
  else if c.stdin = true then
    if w.stdinPipeOk = false then Option.none
    else if w.stdoutPipeOk = false then Option.none
    else
      Option.some
        { mainfd_stdin := w.stdinPipeFds.1
          workerfd_stdin := w.stdinPipeFds.2
          mainfd_stdout := w.stdoutPipeFds.1
          workerfd_stdout := w.stdoutPipeFds.2 }
  else if w.stdoutPipeOk = false then Option.none
  else
    Option.some
      { mainfd_stdout := w.stdoutPipeFds.1
        workerfd_stdout := w.stdoutPipeFds.2 }

/-- A world whose environment is completely empty. -/
def noEnvWorld : World := { okWorld with env := fun _ => Option.none }

/-- A world whose environment maps every variable to an unparseable value. -/
def badValueWorld : World := { okWorld with env := fun _ => Option.some "abc" }

/-- A world supplying start-pipe descriptor 5 (a valid open pipe that the
launcher has not yet written to) and sync-pipe descriptor 6. -/
def suppliedStartWorld : World :=
  { okWorld with
    env := fun k =>
      if k = "_OCI_STARTPIPE" then Option.some "5"
      else if k = "_OCI_SYNCPIPE" then Option.some "6"
      else Option.none
    startPipeHasData := false }

/-- A world whose start-pipe variable holds the value "0". -/
def zeroStartWorld : World :=
  { okWorld with
    env := fun k =>
      if k = "_OCI_STARTPIPE" then Option.some "0"
      else if k = "_OCI_SYNCPIPE" then Option.some "6"
      else Option.none }

/-- A world whose start-pipe variable holds the negative value "-3". -/
def negStartWorld : World :=
  { okWorld with
    env := fun k =>
      if k = "_OCI_STARTPIPE" then Option.some "-3" else Option.none }

/-- `okConfig` with a log destination whose keyword before the colon is not a
recognized driver. -/
def badLogConfig : Config := { okConfig with log_path := ["wrong:/some/path"] }

/-- `okConfig` in daemonize mode with a configured legacy pidfile. -/
def daemonConfig : Config :=
  { okConfig with sync := false, pidfile := Option.some "/run/conmon.pid" }

/-! ## The canonical lifecycle order -/

/-- Kinds the I/O-channel stage can emit, in order. -/
def ioOrder : List Kind :=
  [Kind.stdinPairCreated, Kind.nonblockWarning, Kind.stdoutPairCreated]

/-- Kinds from stdio redirection onwards, in order. -/
def stdioOrder : List Kind :=
  [Kind.stdioRedirected, Kind.sessionCreated, Kind.subreaperFlagged] ++ ioOrder

/-- Kinds from the `atexit` registration onwards, in order. -/
def afterForkOrder : List Kind :=
  Kind.atexitRegistered :: stdioOrder

/-- Kinds from the fork stage onwards, in order. -/
def forkOrder : List Kind :=
  [Kind.pidfileWritten, Kind.forked] ++ afterForkOrder

/-- Kinds from the start-pipe stage onwards, in order. -/
def startOrder : List Kind :=
  [Kind.startPipeRead, Kind.startPipeClosed] ++ forkOrder

/-- The full linear lifecycle order of `Conmon::run`. -/
def lifecycleOrder : List Kind :=
  [Kind.loggingConfigured, Kind.oomWarning, Kind.signalsArmed] ++ startOrder

/-- The lifecycle order without the start-pipe events, which the code can in
fact never emit. -/
def lifecycleOrderSkipStart : List Kind :=
  [Kind.loggingConfigured, Kind.oomWarning, Kind.signalsArmed] ++ forkOrder

/-! ## Helper lemmas -/

theorem set_oom_error_form (w : World) (score : String) :
    set_oom w score = Except.error ("open oom score file: open /proc/self/oom_score_adj for reading") ∨
    set_oom w score = Except.error ("write oom score: " ++ ("Bad file descriptor: " ++ score)) := by
  unfold set_oom fileOpenRead writeAll
  cases h : w.openReadOk "/proc/self/oom_score_adj" <;> simp [h]

theorem set_oom_isOk_false (w : World) (score : String) :
    (set_oom w score).isOk = false := by
  rcases set_oom_error_form w score with h | h <;> rw [h] <;> rfl

theorem pipe_from_env_ok_eq_zero (w : World) (k : String) (n : Int)
    (h : pipe_from_env w k = Except.ok n) : n = 0 := by
  unfold pipe_from_env at h
  split at h
  · exact absurd h (by simp)
  · split at h
    · exact absurd h (by simp)
    · unfold fcntl_setfd_cloexec at h
      split at h
      · simp only [Except.ok.injEq] at h
        omega
      · exact absurd h (by simp)

theorem runStartPipe_cases (c : Config) (w : World) (f : Bool) :
    runStartPipe c w f = ([], Outcome.error "get start pipe") ∨
    runStartPipe c w f = runForkStage c w f := by
  unfold runStartPipe
  cases h : pipe_from_env w "_OCI_STARTPIPE" with
  | error e => left; rfl
  | ok n =>
    right
    have hn := pipe_from_env_ok_eq_zero w _ n h
    subst hn
    simp

theorem stdout_kinds (w : World) :
    List.Sublist ((runStdoutPair w).1.map Event.kind) [Kind.stdoutPairCreated] := by
  unfold runStdoutPair
  split
  · simp
  · simp [Event.kind]

theorem io_kinds (c : Config) (w : World) :
    List.Sublist ((runIoChannels c w).1.map Event.kind) ioOrder := by
  unfold runIoChannels
  split
  · simp
  · split
    · split
      · simp
      · unfold withEvents
        simp only [List.map_append, List.map_cons]
        have h2 : List.Sublist ((runStdoutPair w).1.map Event.kind) [Kind.stdoutPairCreated] :=
          stdout_kinds w
        have h1 : List.Sublist
            (Event.kind (Event.stdinPairCreated w.stdinPipeFds.1 w.stdinPipeFds.2) ::
              (if w.nonblockOk = false then [Event.nonblockWarning] else []).map Event.kind)
            [Kind.stdinPairCreated, Kind.nonblockWarning] := by
          split <;> simp [Event.kind]
        have := List.Sublist.append h1 h2
        simpa [ioOrder] using this
    · exact (stdout_kinds w).trans (by decide)

theorem stdio_kinds (c : Config) (w : World) :
    List.Sublist ((runStdioAndSession c w).1.map Event.kind) stdioOrder := by
  unfold runStdioAndSession
  split
  · simp
  · split
    · simp
    · split
      · simp
      · split
        · simp only [List.map_cons, List.map_nil, Event.kind]
          decide
        · split
          · simp only [List.map_cons, List.map_nil, Event.kind]
            decide
          · unfold withEvents
            simp only [List.map_append, List.map_cons, List.map_nil, Event.kind]
            have h2 := io_kinds c w
            have h1 := List.Sublist.refl
              ([Kind.stdioRedirected, Kind.sessionCreated, Kind.subreaperFlagged] : List Kind)
            have := List.Sublist.append h1 h2
            simpa [stdioOrder] using this

theorem afterFork_kinds (c : Config) (w : World) :
    List.Sublist ((runAfterFork c w).1.map Event.kind) afterForkOrder := by
  unfold runAfterFork withEvents
  simp only [List.map_append, List.map_cons, List.map_nil, Event.kind]
  have hhead := List.Sublist.refl ([Kind.atexitRegistered] : List Kind)
  have htail : List.Sublist ((match c.sdnotify_socket with
      | Option.some _ =>
        (([] : List Event), Outcome.notSupported "sd notify sockets are not implemented yet")
      | Option.none =>
        match pipe_from_env w "_OCI_SYNCPIPE" with
        | Except.error _ => (([] : List Event), Outcome.error "get sync pipe")
        | Except.ok _ =>
          if c.exec_attach = true then
            match pipe_from_env w "_OCI_ATTACHPIPE" with
            | Except.error _ => (([] : List Event), Outcome.error "get attach pipe")
            | Except.ok _ => runStdioAndSession c w
          else runStdioAndSession c w).1.map Event.kind) stdioOrder := by
    split
    · simp
    · split
      · simp
      · split
        · split
          · simp
          · exact stdio_kinds c w
        · exact stdio_kinds c w
  have := List.Sublist.append hhead htail
  simpa [afterForkOrder] using this

theorem fork_kinds (c : Config) (w : World) (f : Bool) :
    List.Sublist ((runForkStage c w f).1.map Event.kind) forkOrder := by
  unfold runForkStage
  split
  · split
    · simp
    · split
      · split
        · split
          · simp only [List.map_cons, List.map_nil, Event.kind]
            decide
          · simp
        · simp
      · unfold withEvents
        simp only [List.map_append, List.map_cons, List.map_nil, Event.kind]
        have h2 := afterFork_kinds c w
        have : List.Sublist ([Kind.forked] ++ (runAfterFork c w).1.map Event.kind)
            ([Kind.forked] ++ afterForkOrder) :=
          List.Sublist.append (List.Sublist.refl _) h2
        refine this.trans ?_
        simp only [forkOrder]
        exact List.Sublist.cons _ (List.Sublist.refl _)
  · exact (afterFork_kinds c w).trans (by simp [forkOrder])

theorem start_kinds (c : Config) (w : World) (f : Bool) :
    List.Sublist ((runStartPipe c w f).1.map Event.kind) forkOrder := by
  rcases runStartPipe_cases c w f with h | h <;> rw [h]
  · simp
  · exact fork_kinds c w f

theorem logging_kinds_gen (c : Config) (w : World) (f : Bool) (ord : List Kind)
    (hstart : List.Sublist ((runStartPipe c w f).1.map Event.kind) ord) :
    List.Sublist ((runLogging c w f).1.map Event.kind)
      (Kind.loggingConfigured :: Kind.oomWarning :: Kind.signalsArmed :: ord) := by
  unfold runLogging withEvents
  rcases set_oom_error_form w "-1000" with h | h <;> rw [h] <;>
    simp only [List.map_append, List.map_cons, List.map_nil, Event.kind]
  all_goals
    have htail : List.Sublist
        ((if w.signalOk = false then (([] : List Event), Outcome.error "set signal handler")
          else ([Event.signalsArmed] ++ (runStartPipe c w f).1,
            (runStartPipe c w f).2)).1.map Event.kind) (Kind.signalsArmed :: ord) := by
      split
      · simp
      · simp only [List.map_append, List.map_cons, List.map_nil, Event.kind]
        exact List.Sublist.cons₂ _ hstart
    have := List.Sublist.append
      (List.Sublist.refl ([Kind.loggingConfigured, Kind.oomWarning] : List Kind)) htail
    simpa using this

theorem logging_kinds (c : Config) (w : World) (f : Bool) :
    List.Sublist ((runLogging c w f).1.map Event.kind) lifecycleOrderSkipStart :=
  logging_kinds_gen c w f forkOrder (start_kinds c w f)

theorem validate_shape (c : Config) (w : World) (c2 : Config)
    (h : validate c w = Except.ok c2) :
    ∃ b p, c2 = { c with bundle := b, container_pidfile := p } := by
  unfold validate at h
  split at h
  · exact absurd h (by simp)
  · split at h
    · exact absurd h (by simp)
    · split at h
      · exact absurd h (by simp)
      · split at h
        · exact absurd h (by simp)
        · simp only [Except.ok.injEq] at h
          subst h
          split <;> split <;> exact ⟨_, _, rfl⟩

theorem run_kinds_skipStart (c : Config) (w : World) (f : Bool) :
    List.Sublist (runKinds c w f) lifecycleOrderSkipStart := by
  unfold runKinds run
  split
  · simp
  · split
    · simp
    · exact logging_kinds _ w f

theorem run_kinds_lifecycle (c : Config) (w : World) (f : Bool) :
    List.Sublist (runKinds c w f) lifecycleOrder := by
  refine (run_kinds_skipStart c w f).trans ?_
  decide

theorem runKinds_count_zero (c : Config) (w : World) (f : Bool) (k : Kind)
    (hk : lifecycleOrderSkipStart.count k = 0) : (runKinds c w f).count k = 0 := by
  have := (run_kinds_skipStart c w f).count_le k
  omega

theorem runForkStage_sync (c : Config) (w : World) (f : Bool) (h : c.sync = true) :
    runForkStage c w f = runAfterFork c w := by
  unfold runForkStage
  rw [h]
  simp

theorem start_kinds_sync (c : Config) (w : World) (f : Bool) (h : c.sync = true) :
    List.Sublist ((runStartPipe c w f).1.map Event.kind) afterForkOrder := by
  rcases runStartPipe_cases c w f with h1 | h1 <;> rw [h1]
  · simp
  · rw [runForkStage_sync c w f h]
    exact afterFork_kinds c w

theorem run_kinds_sync (c : Config) (w : World) (f : Bool) (h : c.sync = true) :
    List.Sublist (runKinds c w f)
      (Kind.loggingConfigured :: Kind.oomWarning :: Kind.signalsArmed :: afterForkOrder) := by
  unfold runKinds run
  split
  · simp
  · split
    · simp
    · rename_i c2 hv
      obtain ⟨b, p, rfl⟩ := validate_shape c w c2 hv
      exact logging_kinds_gen _ w f afterForkOrder (start_kinds_sync _ w f h)

theorem splitOnChar_ne_nil (sep : Char) (l : List Char) : splitOnChar sep l ≠ [] := by
  induction l with
  | nil => simp [splitOnChar]
  | cons c cs ih =>
    unfold splitOnChar
    split
    · simp
    · cases h : splitOnChar sep cs <;> simp

theorem splitOnChar_append (sep : Char) (pre l : List Char) (hpre : sep ∉ pre) :
    splitOnChar sep (pre ++ sep :: l) = pre :: splitOnChar sep l := by
  induction pre with
  | nil => simp [splitOnChar]
  | cons c cs ih =>
    have hc : ¬ c = sep := by
      intro h
      exact hpre (by simp [h])
    have hcs : sep ∉ cs := fun h => hpre (List.mem_cons_of_mem _ h)
    simp only [List.cons_append, splitOnChar, hc, if_false, List.append_eq, ih hcs]

theorem runStartPipe_eq_fork (c : Config) (w : World) (f : Bool)
    (h : (pipe_from_env w "_OCI_STARTPIPE").isOk = true) :
    runStartPipe c w f = runForkStage c w f := by
  unfold runStartPipe
  cases hp : pipe_from_env w "_OCI_STARTPIPE" with
  | error e => rw [hp] at h; simp [Except.isOk, Except.toBool] at h
  | ok n =>
    have hn := pipe_from_env_ok_eq_zero w _ n hp
    subst hn
    simp

theorem runLogging_eq (c : Config) (w : World) (f : Bool) (hsig : w.signalOk = true) :
    runLogging c w f =
      ([Event.loggingConfigured, Event.oomWarning, Event.signalsArmed] ++
        (runStartPipe c w f).1, (runStartPipe c w f).2) := by
  unfold runLogging withEvents
  rcases set_oom_error_form w "-1000" with h | h <;> rw [h, hsig] <;> simp

theorem run_eq_logging (c : Config) (w : World) (f : Bool) (c2 : Config)
    (h1 : w.initLoggingOk = true) (hv : validate c w = Except.ok c2) :
    run c w f = runLogging c2 w f := by
  unfold run
  rw [h1, hv]
  simp

theorem runLogging_count_oom (c : Config) (w : World) (f : Bool) :
    ((runLogging c w f).1.map Event.kind).count Kind.oomWarning = 1 := by
  unfold runLogging withEvents
  rcases set_oom_error_form w "-1000" with h | h <;> rw [h] <;>
    simp only [List.map_append, List.map_cons, List.map_nil, Event.kind] <;>
    rw [List.count_append]
  all_goals
    have htail : List.Sublist
        ((if w.signalOk = false then (([] : List Event), Outcome.error "set signal handler")
          else ([Event.signalsArmed] ++ (runStartPipe c w f).1,
            (runStartPipe c w f).2)).1.map Event.kind)
        (Kind.signalsArmed :: forkOrder) := by
      split
      · simp
      · simp only [List.map_append, List.map_cons, List.map_nil, Event.kind]
        exact List.Sublist.cons₂ _ (start_kinds c w f)
    have hle := htail.count_le Kind.oomWarning
    have hzero : (Kind.signalsArmed :: forkOrder).count Kind.oomWarning = 0 := by decide
    have hone : ([Kind.loggingConfigured, Kind.oomWarning] : List Kind).count Kind.oomWarning = 1 :=
      by decide
    omega

theorem run_count_oom (c : Config) (w : World) (f : Bool) (c2 : Config)
    (h1 : w.initLoggingOk = true) (hv : validate c w = Except.ok c2) :
    (runKinds c w f).count Kind.oomWarning = 1 := by
  unfold runKinds
  rw [run_eq_logging c w f c2 h1 hv]
  exact runLogging_count_oom c2 w f

theorem run_kinds_sync_count (c : Config) (w : World) (f : Bool) (h : c.sync = true)
    (k : Kind)
    (hk : (Kind.loggingConfigured :: Kind.oomWarning :: Kind.signalsArmed ::
      afterForkOrder).count k = 0) :
    (runKinds c w f).count k = 0 := by
  have := (run_kinds_sync c w f h).count_le k
  omega

theorem take_of_data (s : String) (n : Nat) :
    (truncate s n).data = s.data.take n := by
  unfold truncate
  split
  · rfl
  · rename_i h
    have hlen : s.data.length ≤ n := by
      have : s.length = s.data.length := rfl
      omega
    rw [List.take_of_length_le hlen]

theorem parse_k8s_aux (r : String) :
    parse_log_path ("k8s-file:" ++ r) =
      (if String.mk ((splitOnChar ':' r.data).headI) = "" then
        Except.error "logging path cannot be empty"
      else Except.ok (Driver.k8sFile (String.mk ((splitOnChar ':' r.data).headI)))) := by
  obtain ⟨a, t, ht⟩ : ∃ a t, splitOnChar ':' r.data = a :: t := by
    cases h : splitOnChar ':' r.data with
    | nil => exact absurd h (splitOnChar_ne_nil ':' r.data)
    | cons a t => exact ⟨a, t, rfl⟩
  have hdata : ("k8s-file:" ++ r).data = "k8s-file".data ++ ':' :: r.data := rfl
  have hsplit : splitOnChar ':' ("k8s-file:" ++ r).data =
      "k8s-file".data :: a :: t := by
    rw [hdata, splitOnChar_append ':' "k8s-file".data r.data (by decide), ht]
  unfold parse_log_path
  rw [hsplit, ht]
  simp only [List.map_cons, List.head?, List.headI, List.length_cons, List.get?]
  rw [show String.mk "k8s-file".data = "k8s-file" from rfl]
  rw [if_pos (by omega : 1 < (List.map String.mk t).length + 1 + 1)]
  rfl

theorem journald_new_aux (cuuid : String) (name tag : Option String) (fs : String → Bool) :
    (12 ≤ cuuid.utf8ByteSize →
      ContainerLogging.new ["journald"] (Option.some cuuid) name tag fs =
        Except.ok
          { drivers := [Driver.journald
              { id := "CONTAINER_ID=" ++ truncate cuuid 12
                id_full := "CONTAINER_ID_FULL=" ++ cuuid
                tag := tag.map (fun x => "CONTAINER_TAG=" ++ x)
                name := name.map (fun x => "CONTAINER_NAME=" ++ x) }]
            files := [] }) ∧
    (cuuid.utf8ByteSize < 12 →
      ContainerLogging.new ["journald"] (Option.some cuuid) name tag fs =
        Except.error "container ID must be longer than 12 characters") := by
  have step : ContainerLogging.new ["journald"] (Option.some cuuid) name tag fs =
      (if cuuid.utf8ByteSize < 12 then
        Except.error "container ID must be longer than 12 characters"
      else
        Except.ok
          { drivers := [Driver.journald
              { id := "CONTAINER_ID=" ++ truncate cuuid 12
                id_full := "CONTAINER_ID_FULL=" ++ cuuid
                tag := tag.map (fun x => "CONTAINER_TAG=" ++ x)
                name := name.map (fun x => "CONTAINER_NAME=" ++ x) }]
            files := [] }) := by
    show newAux fs (Option.some cuuid) name tag ["journald"] [] [] = _
    rw [show (["journald"] : List String) = "journald" :: [] from rfl]
    rw [newAux]
    rw [show parse_log_path "journald" = Except.ok (Driver.journald {}) from rfl]
    dsimp only
    split
    · rfl
    · rw [newAux]
      simp
  constructor
  · intro h
    rw [step, if_neg (by omega)]
  · intro h
    rw [step, if_pos h]

theorem run_parent_exit (c : Config) (w : World) (p : String)
    (hsync : c.sync = false) (hpid : c.pidfile = Option.some p)
    (h1 : w.initLoggingOk = true) (hv : (validate c w).isOk = true)
    (hsig : w.signalOk = true) (hstart : (pipe_from_env w "_OCI_STARTPIPE").isOk = true)
    (hfork : w.forkOk = true) (hw : w.pidfileWriteOk = true) :
    run c w false =
      ([Event.loggingConfigured, Event.oomWarning, Event.signalsArmed,
        Event.pidfileWritten p (Nat.repr w.childPid)], Outcome.exited 0) := by
  obtain ⟨c2, hval⟩ : ∃ c2, validate c w = Except.ok c2 := by
    cases h : validate c w with
    | error e => rw [h] at hv; simp [Except.isOk, Except.toBool] at hv
    | ok c2 => exact ⟨c2, rfl⟩
  rw [run_eq_logging c w false c2 h1 hval]
  obtain ⟨b, pp, rfl⟩ := validate_shape c w c2 hval
  rw [runLogging_eq _ w false hsig]
  rw [runStartPipe_eq_fork _ w false hstart]
  unfold runForkStage
  dsimp only
  rw [hsync, hfork, hpid, hw]
  simp

example : run okConfig okWorld true =
    ([Event.loggingConfigured, Event.oomWarning, Event.signalsArmed,
      Event.atexitRegistered, Event.stdioRedirected, Event.sessionCreated,
      Event.subreaperFlagged, Event.stdoutPairCreated 12 13], Outcome.ok) := rfl

example : parse_log_path "/some/path" = Except.ok (Driver.k8sFile "/some/path") := rfl
example : parse_log_path "k8s-file:/some/path" = Except.ok (Driver.k8sFile "/some/path") := rfl
example : parse_log_path "journald:/some/path" = Except.ok (Driver.journald {}) := rfl
example : parse_log_path "journald" = Except.ok (Driver.journald {}) := rfl
example : parse_log_path "journald:" = Except.ok (Driver.journald {}) := rfl
example : parse_log_path ":/some/path" = Except.error "convert log driver" := rfl
example : parse_log_path "wrong:/some/path" = Except.error "convert log driver" := rfl
example : parse_log_path "none" = Except.ok Driver.none := rfl
example : parse_log_path "off" = Except.ok Driver.off := rfl
example : parse_log_path "null" = Except.ok Driver.null := rfl
example : parse_log_path "k8s-file:/a:b" = Except.ok (Driver.k8sFile "/a") := rfl
example : truncate "0123456789abcdef" 12 = "0123456789ab" := rfl
example : ("ääääää" : String).utf8ByteSize = 12 := rfl
example : ("ääääää" : String).length = 6 := rfl

/-! ## The claims -/

/-- C1: the claim says a log-destination resolution failure makes
`Conmon::run` return an error and terminate the invocation.  In the source,
`run` binds the `Result` of `ContainerLogging::new` to `_container_logging`
without `?`, so the error is discarded: with the log destination
`wrong:/some/path` (whose resolution fails, as the crate's own test expects)
and every other step succeeding, `run` still completes with `Ok(())`. -/
theorem c1_log_driver_error_not_propagated :
    ContainerLogging.new ["wrong:/some/path"] (Option.some "0123456789abcdef")
        Option.none Option.none (fun _ => true) = Except.error "convert log driver" ∧
    (run badLogConfig okWorld true).2 = Outcome.ok := ⟨rfl, rfl⟩

/-- C2 counterexample: the claim says an unset pipe environment variable
yields a "not provided" sentinel rather than an error; but `pipe_from_env`
propagates the `env::var` lookup error with `?`, so on a world with an empty
environment it returns an error. -/
theorem c2_unset_pipe_env_is_error :
    pipe_from_env noEnvWorld "_OCI_STARTPIPE" =
      Except.error "environment variable not found" ∧
    (pipe_from_env noEnvWorld "_OCI_STARTPIPE").isOk = false := ⟨rfl, rfl⟩

/-- C2 amended: for every pipe name, resolving the descriptor from the
environment fails with the propagated lookup error when the variable is
unset (there is no sentinel), and fails with a parse error when the variable
is set but not parseable as a signed 32-bit integer. -/
theorem c2_pipe_from_env_error_modes :
    (∀ (w : World) (key : String), w.env key = Option.none →
      pipe_from_env w key = Except.error "environment variable not found") ∧
    (∀ (w : World) (key v : String), w.env key = Option.some v →
      parseI32 v = Option.none → pipe_from_env w key = Except.error "parse env key") := by
  constructor
  · intro w key h
    unfold pipe_from_env
    rw [h]
  · intro w key v h hp
    unfold pipe_from_env
    rw [h]
    dsimp only
    rw [hp]

/-- C2 witness: the two error modes at concrete worlds. -/
theorem c2_pipe_from_env_error_modes_witness :
    pipe_from_env noEnvWorld "_OCI_SYNCPIPE" =
      Except.error "environment variable not found" ∧
    pipe_from_env badValueWorld "_OCI_SYNCPIPE" = Except.error "parse env key" :=
  ⟨c2_pipe_from_env_error_modes.1 noEnvWorld "_OCI_SYNCPIPE" rfl,
    c2_pipe_from_env_error_modes.2 badValueWorld "_OCI_SYNCPIPE" "abc" rfl rfl⟩

/-- C3: the claim (and the source's own comment "Block for an initial write
to the start pipe") says the monitor blocks on a start-pipe read until the
launcher writes.  In the code the wait can never happen: `pipe_from_env`
returns the result of `fcntl(F_SETFD)` (0 on success, here proved for the
supplied descriptor 5), so the `start_pipe_fd > 0` guard is false and no
read event ever occurs even though a valid start pipe was supplied and `run`
completes; moreover the read, were it reached, uses the zero-capacity buffer
`vec![]`, and a zero-byte read returns immediately (`readPipe 0`) even with
no data available.  `parseI32 "5" = 5 > 0` shows the supplied descriptor
itself was positive. -/
theorem c3_start_pipe_wait_never_happens :
    parseI32 "5" = Option.some 5 ∧
    pipe_from_env suppliedStartWorld "_OCI_STARTPIPE" = Except.ok 0 ∧
    (runKinds okConfig suppliedStartWorld true).count Kind.startPipeRead = 0 ∧
    (run okConfig suppliedStartWorld true).2 = Outcome.ok ∧
    readPipe 0 false = Option.some 0 := ⟨rfl, rfl, rfl, rfl, rfl⟩

/-- C4 counterexample: the claim says subreaper flagging occurs strictly
before stdio redirection.  In the trace of a fully successful sync-mode
invocation each of the two events occurs exactly once and the stdio
redirection comes first, so subreaper flagging is not before it. -/
theorem c4_subreaper_after_session :
    runKinds okConfig okWorld true =
      [Kind.loggingConfigured, Kind.oomWarning, Kind.signalsArmed, Kind.atexitRegistered,
       Kind.stdioRedirected, Kind.sessionCreated, Kind.subreaperFlagged,
       Kind.stdoutPairCreated] ∧
    (runKinds okConfig okWorld true).count Kind.subreaperFlagged = 1 ∧
    (runKinds okConfig okWorld true).count Kind.stdioRedirected = 1 ∧
    (runKinds okConfig okWorld true).indexOf Kind.stdioRedirected <
      (runKinds okConfig okWorld true).indexOf Kind.subreaperFlagged := by
  refine ⟨rfl, rfl, rfl, ?_⟩
  decide

/-- C4 amended: every invocation walks the lifecycle in a fixed linear order
with no backward transitions and no repetitions (its event-kind trace is a
sublist of `lifecycleOrder`); in that order stdio redirection is strictly
before session creation, and session creation strictly before subreaper
flagging. -/
theorem c4_lifecycle_linear_order :
    (∀ (c : Config) (w : World) (f : Bool),
      List.Sublist (runKinds c w f) lifecycleOrder) ∧
    lifecycleOrder.indexOf Kind.stdioRedirected <
      lifecycleOrder.indexOf Kind.sessionCreated ∧
    lifecycleOrder.indexOf Kind.sessionCreated <
      lifecycleOrder.indexOf Kind.subreaperFlagged := by
  refine ⟨run_kinds_lifecycle, by decide, by decide⟩

/-- C5 counterexample: the claim says every non-terminal invocation creates a
stderr descriptor pair.  A fully successful non-terminal invocation creates
the stdout pair but no stderr pair. -/
theorem c5_no_stderr_pair_created :
    (run okConfig okWorld true).2 = Outcome.ok ∧
    okConfig.terminal = false ∧
    (runKinds okConfig okWorld true).count Kind.stdoutPairCreated = 1 ∧
    (runKinds okConfig okWorld true).count Kind.stderrPairCreated = 0 := ⟨rfl, rfl, rfl, rfl⟩

/-- C5 amended: no invocation ever creates a stderr descriptor pair; only the
optional stdin pair and the stdout pair are provisioned, and the worker
stderr variable keeps its initial value -1 whenever the I/O-channel stage
completes. -/
theorem c5_stderr_pair_never_created :
    (∀ (c : Config) (w : World) (f : Bool),
      (runKinds c w f).count Kind.stderrPairCreated = 0) ∧
    (∀ (c : Config) (w : World) (fds : IoFds),
      ioFdsAfter c w = Option.some fds → fds.workerfd_stderr = -1) := by
  constructor
  · intro c w f
    exact runKinds_count_zero c w f _ (by decide)
  · intro c w fds h
    unfold ioFdsAfter at h
    split at h
    · exact absurd h (by simp)
    · split at h
      · split at h
        · exact absurd h (by simp)
        · split at h
          · exact absurd h (by simp)
          · simp only [Option.some.injEq] at h
            subst h
            rfl
      · split at h
        · exact absurd h (by simp)
        · simp only [Option.some.injEq] at h
          subst h
          rfl

/-- C5 witness: the I/O-channel stage of a successful invocation leaves the
worker stderr descriptor at -1. -/
theorem c5_stderr_pair_never_created_witness :
    ({ mainfd_stdout := 12, workerfd_stdout := 13 } : IoFds).workerfd_stderr = -1 :=
  c5_stderr_pair_never_created.2 okConfig okWorld _ rfl

/-- C6 counterexample: the claim says the path is the entire remainder after
the first colon, colons preserved, so `k8s-file:/a:b` should give the path
`/a:b`; the code gives `/a` (the segment between the first and second
colon). -/
theorem c6_colon_path_truncated :
    parse_log_path "k8s-file:/a:b" = Except.ok (Driver.k8sFile "/a") ∧
    Decidable.decide ("/a" = "/a:b") = false := ⟨rfl, rfl⟩

/-- C6 amended: parsing splits the specification on every colon; for every
remainder `r` after the `k8s-file:` prefix, the resulting driver's path is
the first colon-separated segment of `r` (anything after a second colon is
discarded), and an empty segment is a hard error. -/
theorem c6_k8s_file_path_is_second_segment (r : String) :
    parse_log_path ("k8s-file:" ++ r) =
      (if String.mk ((splitOnChar ':' r.data).headI) = "" then
        Except.error "logging path cannot be empty"
      else Except.ok (Driver.k8sFile (String.mk ((splitOnChar ':' r.data).headI)))) :=
  parse_k8s_aux r

/-- C7 counterexample: the claim says `ContainerLogging::new` fails whenever
the container identifier has fewer than 12 characters.  The code checks
`cuuid.len()`, the UTF-8 byte length: the identifier `ääääää` has 6
characters but 12 bytes, and resolution succeeds. -/
theorem c7_multibyte_short_id_accepted :
    ("ääääää" : String).length = 6 ∧
    ("ääääää" : String).utf8ByteSize = 12 ∧
    (ContainerLogging.new ["journald"] (Option.some "ääääää") Option.none Option.none
      (fun _ => true)).isOk = true := ⟨rfl, rfl, rfl⟩

/-- C7 amended: journald resolution fails exactly when the identifier's UTF-8
byte length is below 12 (for ASCII identifiers this is the character count);
on success the short id field holds `CONTAINER_ID=` followed by the
identifier truncated to its first 12 characters (unchanged when already that
short; `truncate` keeps exactly the first 12 characters) and the full id
field holds `CONTAINER_ID_FULL=` followed by the identifier unchanged. -/
theorem c7_journald_id_fields (cuuid : String) (name tag : Option String)
    (fs : String → Bool) :
    (12 ≤ cuuid.utf8ByteSize →
      ContainerLogging.new ["journald"] (Option.some cuuid) name tag fs =
        Except.ok
          { drivers := [Driver.journald
              { id := "CONTAINER_ID=" ++ truncate cuuid 12
                id_full := "CONTAINER_ID_FULL=" ++ cuuid
                tag := tag.map (fun x => "CONTAINER_TAG=" ++ x)
                name := name.map (fun x => "CONTAINER_NAME=" ++ x) }]
            files := [] }) ∧
    (cuuid.utf8ByteSize < 12 →
      ContainerLogging.new ["journald"] (Option.some cuuid) name tag fs =
        Except.error "container ID must be longer than 12 characters") ∧
    (truncate cuuid 12).data = cuuid.data.take 12 :=
  ⟨(journald_new_aux cuuid name tag fs).1, (journald_new_aux cuuid name tag fs).2,
    take_of_data cuuid 12⟩

/-- C7 witness: a 20-character identifier yields the truncated 12-character
id plus the unchanged full id, and a 5-character identifier fails. -/
theorem c7_journald_id_fields_witness :
    ContainerLogging.new ["journald"] (Option.some "0123456789abcdefghij")
        Option.none Option.none (fun _ => true) =
      Except.ok
        { drivers := [Driver.journald
            { id := "CONTAINER_ID=0123456789ab"
              id_full := "CONTAINER_ID_FULL=0123456789abcdefghij"
              tag := Option.none
              name := Option.none }]
          files := [] } ∧
    ContainerLogging.new ["journald"] (Option.some "short") Option.none Option.none
        (fun _ => true) = Except.error "container ID must be longer than 12 characters" :=
  ⟨(c7_journald_id_fields "0123456789abcdefghij" Option.none Option.none
      (fun _ => true)).1 (by decide),
    (c7_journald_id_fields "short" Option.none Option.none
      (fun _ => true)).2.1 (by decide)⟩

/-- C8: in daemonize mode (sync unset) with a configured pidfile, the process
following the parent branch writes the child's decimal pid to the pidfile
and exits with status 0 without any subreaper/stdio/session event; in
keep-as-child mode (sync set) no fork and no pidfile write event ever occur,
and a fully successful sync invocation proceeds directly through stdio
redirection, session creation and subreaper flagging. -/
theorem c8_fork_modes :
    (∀ (c : Config) (w : World) (p : String), c.sync = false →
      c.pidfile = Option.some p → w.initLoggingOk = true →
      (validate c w).isOk = true → w.signalOk = true →
      (pipe_from_env w "_OCI_STARTPIPE").isOk = true →
      w.forkOk = true → w.pidfileWriteOk = true →
      run c w false =
        ([Event.loggingConfigured, Event.oomWarning, Event.signalsArmed,
          Event.pidfileWritten p (Nat.repr w.childPid)], Outcome.exited 0)) ∧
    (∀ (c : Config) (w : World) (f : Bool), c.sync = true →
      (runKinds c w f).count Kind.forked = 0 ∧
      (runKinds c w f).count Kind.pidfileWritten = 0) ∧
    (okConfig.sync = true ∧
      runKinds okConfig okWorld true =
        [Kind.loggingConfigured, Kind.oomWarning, Kind.signalsArmed, Kind.atexitRegistered,
         Kind.stdioRedirected, Kind.sessionCreated, Kind.subreaperFlagged,
         Kind.stdoutPairCreated]) := by
  refine ⟨run_parent_exit, ?_, rfl, rfl⟩
  intro c w f h
  exact ⟨run_kinds_sync_count c w f h _ (by decide),
    run_kinds_sync_count c w f h _ (by decide)⟩

/-- C8 witness: a concrete daemonize-mode invocation writes pid 42 to the
configured pidfile and exits 0. -/
theorem c8_fork_modes_witness :
    run daemonConfig okWorld false =
      ([Event.loggingConfigured, Event.oomWarning, Event.signalsArmed,
        Event.pidfileWritten "/run/conmon.pid" (Nat.repr 42)], Outcome.exited 0) ∧
    (runKinds okConfig okWorld true).count Kind.forked = 0 :=
  ⟨c8_fork_modes.1 daemonConfig okWorld "/run/conmon.pid" rfl rfl rfl rfl rfl rfl rfl rfl,
    (c8_fork_modes.2.1 okConfig okWorld true rfl).1⟩

/-- C9: `Conmon::set_oom` opens `/proc/self/oom_score_adj` with `File::open`
(read-only) and then writes to the handle, so it can never succeed; every
invocation of `run` that gets past config validation therefore takes the
warning branch exactly once. -/
theorem c9_set_oom_always_fails :
    (∀ (w : World) (score : String), (set_oom w score).isOk = false) ∧
    (∀ (c : Config) (w : World) (f : Bool), w.initLoggingOk = true →
      (validate c w).isOk = true →
      (runKinds c w f).count Kind.oomWarning = 1) := by
  refine ⟨set_oom_isOk_false, ?_⟩
  intro c w f h1 hv
  obtain ⟨c2, hval⟩ : ∃ c2, validate c w = Except.ok c2 := by
    cases h : validate c w with
    | error e => rw [h] at hv; simp [Except.isOk, Except.toBool] at hv
    | ok c2 => exact ⟨c2, rfl⟩
  exact run_count_oom c w f c2 h1 hval

/-- C9 witness: the concrete all-successful invocation warns exactly once and
its `set_oom` call fails. -/
theorem c9_set_oom_always_fails_witness :
    (set_oom okWorld "-1000").isOk = false ∧
    (runKinds okConfig okWorld true).count Kind.oomWarning = 1 :=
  ⟨c9_set_oom_always_fails.1 okWorld "-1000",
    c9_set_oom_always_fails.2 okConfig okWorld true rfl rfl⟩

/-- C10: a start-pipe variable holding "0" leads to no wait and no close and
the run proceeds normally; the wait is performed only when the parsed
descriptor is strictly positive (in fact it is never performed, which makes
the condition hold); and a negative decimal value such as "-3" passes the
signed parse and fails only at the close-on-exec `fcntl` call. -/
theorem c10_start_pipe_zero_and_negative :
    ((runKinds okConfig zeroStartWorld true).count Kind.startPipeRead = 0 ∧
     (runKinds okConfig zeroStartWorld true).count Kind.startPipeClosed = 0 ∧
     (run okConfig zeroStartWorld true).2 = Outcome.ok) ∧
    (∀ (c : Config) (w : World) (f : Bool),
      (runKinds c w f).count Kind.startPipeRead = 0 ∨
      (∃ v n, w.env "_OCI_STARTPIPE" = Option.some v ∧
        parseI32 v = Option.some n ∧ 0 < n)) ∧
    (parseI32 "-3" = Option.some (-3) ∧
     pipe_from_env negStartWorld "_OCI_STARTPIPE" = Except.error "make CLOEXEC") := by
  refine ⟨⟨rfl, rfl, rfl⟩, ?_, rfl, rfl⟩
  intro c w f
  exact Or.inl (runKinds_count_zero c w f _ (by decide))

end Conmon
